import Mathlib

/-!
Shallow embedding of the gallia structured-logging subsystem
(`src/gallia/log.py`) and proofs of the specification claims.

Conventions of the embedding:
* machine integers of Python are modelled as `Nat` (all level numbers and
  priority codes in the source are small non-negative integers);
* fallible Python code (raising exceptions) is modelled with `Except PyError`;
* process-wide mutable state (the attributes of the `logging` module and of
  the logger class) is modelled by explicit state passing;
* wall-clock timestamps are abstracted as the already-rendered string they
  contribute to a record (no claim inspects the inside of a timestamp);
* `%`-style message templating is modelled for the `%s` and `%%` conversions,
  the ones the repository uses.
-/

namespace Gallia

/-- Python exception kinds raised on the paths of `log.py` that we model. -/
inductive PyError where
  | attributeError
  | indexError
  | keyError
  | typeError
deriving DecidableEq, Repr

namespace logging

/-- Numeric level `CRITICAL` predefined by the Python `logging` module. -/
def CRITICAL : Nat := 50

/-- Numeric level `ERROR` predefined by the Python `logging` module. -/
def ERROR : Nat := 40

/-- Numeric level `WARNING` predefined by the Python `logging` module. -/
def WARNING : Nat := 30

/-- Numeric level `INFO` predefined by the Python `logging` module. -/
def INFO : Nat := 20

/-- Numeric level `DEBUG` predefined by the Python `logging` module. -/
def DEBUG : Nat := 10

/-- Numeric level `NOTSET` predefined by the Python `logging` module. -/
def NOTSET : Nat := 0

/-- Extension level `TRACE` registered by `add_logging_level("TRACE", 5)`
    (log.py line 57). -/
def TRACE : Nat := 5

/-- Extension level `NOTICE` registered by `add_logging_level("NOTICE", 25)`
    (log.py line 58). -/
def NOTICE : Nat := 25

end logging

/-- MessagePrio (log.py lines 107-117): the externally stable priority codes,
    one member per required severity, declared most to least severe. -/
inductive MessagePrio where
  | EMERGENCY
  | ALERT
  | CRITICAL
  | ERROR
  | WARNING
  | NOTICE
  | INFO
  | DEBUG
  | TRACE
deriving DecidableEq, BEq, Fintype, Repr

/-- Numeric value of each `MessagePrio` member, exactly as assigned in the
    source enum (EMERGENCY = 0 ... TRACE = 8). -/
def MessagePrio.value : MessagePrio → Nat
  | .EMERGENCY => 0
  | .ALERT => 1
  | .CRITICAL => 2
  | .ERROR => 3
  | .WARNING => 4
  | .NOTICE => 5
  | .INFO => 6
  | .DEBUG => 7
  | .TRACE => 8

/-- The nine required severities in the declared most-to-least-severe order
    (the declaration order of the `MessagePrio` enum). -/
def severityOrder : List MessagePrio :=
  [.EMERGENCY, .ALERT, .CRITICAL, .ERROR, .WARNING, .NOTICE, .INFO, .DEBUG, .TRACE]

/-- Position of a severity in the most-to-least-severe order (0 = most severe). -/
def severityIndex (p : MessagePrio) : Nat := severityOrder.indexOf p

/-- level_to_priority (log.py lines 120-128): the dictionary mapping an internal
    Python level number to its `MessagePrio` member; `none` models a `KeyError`
    on lookup of an absent key. -/
def level_to_priority (lvl : Nat) : Option MessagePrio :=
  if lvl = logging.TRACE then some .TRACE
  else if lvl = logging.DEBUG then some .DEBUG
  else if lvl = logging.INFO then some .INFO
  else if lvl = logging.NOTICE then some .NOTICE
  else if lvl = logging.WARNING then some .WARNING
  else if lvl = logging.ERROR then some .ERROR
  else if lvl = logging.CRITICAL then some .CRITICAL
  else none

/-- Key set of the `level_to_priority` dictionary, in source order. -/
def registeredLevels : List Nat :=
  [logging.TRACE, logging.DEBUG, logging.INFO, logging.NOTICE,
   logging.WARNING, logging.ERROR, logging.CRITICAL]

/-- Internal level number registered for a severity, obtained by searching the
    key set of `level_to_priority`; EMERGENCY and ALERT have none. -/
def registeredLevelFor (p : MessagePrio) : Option Nat :=
  registeredLevels.find? (fun l => level_to_priority l == some p)

/-- A Python attribute value, as far as `add_logging_level` sets and reads
    them: a level constant (an int) or a function object. -/
inductive PyAttr where
  | levelConst (n : Nat)
  | func
deriving DecidableEq, Repr

/-- The process-wide state touched by `add_logging_level`: the attribute table
    of the `logging` module, the attribute table of the logger class returned
    by `logging.getLoggerClass()`, and the level-number-to-name map maintained
    by `logging.addLevelName`. -/
structure LoggingModuleState where
  moduleAttrs : List (String × PyAttr)
  loggerClassAttrs : List String
  levelToName : List (Nat × String)
deriving DecidableEq, Repr

/-- Python `str.lower()`, character by character (the level names involved
    are plain ASCII). -/
def strLower (s : String) : String := String.mk (s.data.map Char.toLower)

/-- Python `hasattr` on an attribute table. -/
def hasattr (attrs : List (String × PyAttr)) (name : String) : Bool :=
  attrs.any (fun p => p.1 = name)

/-- Lookup of an int-valued module attribute (`getattr(logging, name)`). -/
def getattrLevel (st : LoggingModuleState) (name : String) : Option Nat :=
  match st.moduleAttrs.find? (fun p => p.1 = name) with
  | some (_, PyAttr.levelConst n) => some n
  | _ => none

/-- Python `logging.getLevelName(num)`: the registered name, or the fallback
    string `"Level %s" % num` when the number is unregistered. -/
def getLevelName (st : LoggingModuleState) (num : Nat) : String :=
  match st.levelToName.find? (fun p => p.1 = num) with
  | some (_, n) => n
  | none => "Level " ++ toString num

/-- Does some already-registered level carry this numeric rank? -/
def rankExists (st : LoggingModuleState) (num : Nat) : Bool :=
  st.levelToName.any (fun p => p.1 = num)

/-- add_logging_level (log.py lines 31-54). Checks, in source order, that
    `level_name` is not a module attribute, that the derived lowercase
    `method_name` is not a module attribute, and that `method_name` is not an
    attribute of the logger class, raising `AttributeError` otherwise; then
    registers the level name for the number, sets the module-level constant,
    and installs the two convenience functions. No check on `level_num` is
    performed. -/
def add_logging_level (st : LoggingModuleState) (level_name : String)
    (level_num : Nat) : Except PyError LoggingModuleState :=
  let method_name := strLower level_name
  if hasattr st.moduleAttrs level_name then .error .attributeError
  else if hasattr st.moduleAttrs method_name then .error .attributeError
  else if st.loggerClassAttrs.contains method_name then .error .attributeError
  else .ok
    { moduleAttrs := st.moduleAttrs ++
        [(level_name, .levelConst level_num), (method_name, .func)],
      loggerClassAttrs := st.loggerClassAttrs ++ [method_name],
      levelToName := (level_num, level_name) :: st.levelToName }

/-- Attribute table of the Python `logging` module before `log.py` runs:
    the predefined level constants and the public module functions relevant
    to `hasattr` probes of short names. -/
def initLoggingModuleAttrs : List (String × PyAttr) :=
  [("CRITICAL", .levelConst logging.CRITICAL), ("FATAL", .levelConst logging.CRITICAL),
   ("ERROR", .levelConst logging.ERROR), ("WARNING", .levelConst logging.WARNING),
   ("WARN", .levelConst logging.WARNING), ("INFO", .levelConst logging.INFO),
   ("DEBUG", .levelConst logging.DEBUG), ("NOTSET", .levelConst logging.NOTSET),
   ("critical", .func), ("fatal", .func), ("error", .func), ("exception", .func),
   ("warning", .func), ("warn", .func), ("info", .func), ("debug", .func),
   ("log", .func), ("disable", .func), ("shutdown", .func), ("getLogger", .func),
   ("getLoggerClass", .func), ("setLoggerClass", .func), ("basicConfig", .func),
   ("addLevelName", .func), ("getLevelName", .func), ("makeLogRecord", .func),
   ("getLogRecordFactory", .func), ("setLogRecordFactory", .func),
   ("captureWarnings", .func)]

/-- Method names of the stock `logging.Logger` class (the logger class in
    force when `log.py` runs `add_logging_level` at import time). -/
def initLoggerClassAttrs : List String :=
  ["setLevel", "isEnabledFor", "getEffectiveLevel", "getChild", "debug", "info",
   "warning", "warn", "error", "exception", "critical", "fatal", "log",
   "findCaller", "makeRecord", "handle", "addHandler", "removeHandler",
   "hasHandlers", "callHandlers", "filter", "addFilter", "removeFilter"]

/-- Level-number-to-name map predefined by the `logging` module. -/
def initLevelToName : List (Nat × String) :=
  [(logging.CRITICAL, "CRITICAL"), (logging.ERROR, "ERROR"),
   (logging.WARNING, "WARNING"), (logging.INFO, "INFO"),
   (logging.DEBUG, "DEBUG"), (logging.NOTSET, "NOTSET")]

/-- The `logging` module state before `log.py` runs. -/
def initLoggingState : LoggingModuleState :=
  { moduleAttrs := initLoggingModuleAttrs,
    loggerClassAttrs := initLoggerClassAttrs,
    levelToName := initLevelToName }

/-- The `logging` module state after `log.py` lines 57-58 registered the two
    extension levels TRACE = 5 and NOTICE = 25. -/
def galliaLoggingState : LoggingModuleState :=
  match add_logging_level initLoggingState "TRACE" 5 with
  | .error _ => initLoggingState
  | .ok st1 =>
    match add_logging_level st1 "NOTICE" 25 with
    | .error _ => st1
    | .ok st2 => st2

/-- Python `%`-formatting of a message template against a tuple of string
    arguments, restricted to the `%s` and `%%` conversions used in this
    repository. A `%s` consumes the next argument; too few arguments raise
    `TypeError` ("not enough arguments"), and leftover arguments raise
    `TypeError` ("not all arguments converted"), as in CPython. -/
def pyMod : List Char → List String → Except PyError (List Char)
  | [], [] => .ok []
  | [], _ :: _ => .error .typeError
  | '%' :: '%' :: rest, args => (pyMod rest args).map (fun r => '%' :: r)
  | '%' :: 's' :: rest, a :: args => (pyMod rest args).map (fun r => a.data ++ r)
  | '%' :: 's' :: _, [] => .error .typeError
  | c :: rest, args => (pyMod rest args).map (fun r => c :: r)

/-- A log record, as the fields of `logging.LogRecord` read by the two sinks.
    The creation time is abstracted as the string it renders to; `tags` is
    `some ts` exactly when the `extra` mechanism put a `"tags"` key into the
    record's `__dict__`; `excInfo` is `some st` exactly when the record carries
    exception info, with `st` the string `formatException` renders it to. -/
structure LogRecord where
  name : String
  levelno : Nat
  levelname : String
  msg : String
  args : List String
  createdStr : String
  funcName : String
  pathname : String
  lineno : Nat
  tags : Option (List String)
  excInfo : Option String
deriving DecidableEq, Repr

/-- LogRecord.getMessage of the standard library: returns `msg` unchanged when
    `args` is empty, and `msg % args` otherwise. -/
def LogRecord.getMessage (r : LogRecord) : Except PyError String :=
  if r.args.isEmpty then .ok r.msg
  else (pyMod r.msg.data r.args).map (fun cs => String.mk cs)

/-- A JSON value as produced by `JsonFormatter.format` (strings, small
    integers, and arrays of strings are the only shapes that occur). -/
inductive JVal where
  | str (s : String)
  | num (n : Nat)
  | arr (a : List String)
deriving DecidableEq, Repr

/-- JsonFormatter.format (log.py lines 131-154), with the serialized JSON
    object modelled as its key/value list in insertion order. The dict literal
    evaluates `record.getMessage()` (a `TypeError` there propagates) and then
    `level_to_priority[record.levelno]` (a missing key raises `KeyError`);
    `tags` is added iff the record has a `tags` attribute, `stacktrace` iff it
    carries exception info, and `line` is appended last as `pathname:lineno`. -/
def JsonFormatter.format (host : String) (r : LogRecord) :
    Except PyError (List (String × JVal)) :=
  match r.getMessage with
  | .error e => .error e
  | .ok data =>
    match level_to_priority r.levelno with
    | none => .error .keyError
    | some p =>
      .ok ([("version", .num 2), ("component", .str r.name), ("host", .str host),
            ("data", .str data), ("timestamp", .str r.createdStr),
            ("_python_level_no", .num r.levelno),
            ("_python_level_name", .str r.levelname),
            ("_python_func_name", .str r.funcName),
            ("priority", .num p.value)]
           ++ (match r.tags with
               | some ts => [("tags", JVal.arr ts)]
               | none => [])
           ++ (match r.excInfo with
               | some st => [("stacktrace", JVal.str st)]
               | none => [])
           ++ [("line", .str (r.pathname ++ ":" ++ toString r.lineno))])

/-- An output stream of the process. -/
inductive OutStream where
  | stdout
  | stderr
deriving DecidableEq, Repr

/-- console_stderr (log.py line 60): the console all rendering goes to is
    constructed with `stderr=True`. -/
def console_stderr : OutStream := .stderr

/-- Style string chosen by `ConsoleHandler.render` for a level number
    (log.py lines 179-194), including the empty default of the final
    `else` branch. -/
def styleFor (lvl : Nat) : String :=
  if lvl = logging.TRACE then "grey35"
  else if lvl = logging.DEBUG then "grey54"
  else if lvl = logging.INFO then ""
  else if lvl = logging.NOTICE then "bold"
  else if lvl = logging.WARNING then "bold yellow"
  else if lvl = logging.ERROR then "red"
  else if lvl = logging.CRITICAL then "bold red"
  else ""

/-- Python `str.ljust`. -/
def ljust (s : String) (w : Nat) : String :=
  s ++ String.mk (List.replicate (w - s.length) ' ')

/-- The primary line assembled by `ConsoleHandler.render`: the unstyled
    date/component header and the message segment with its style. -/
structure RenderedLine where
  header : String
  body : String
  style : String
deriving DecidableEq, Repr

/-- Configuration of a ConsoleHandler: `__init__` (log.py lines 158-161)
    sets both flags to true. -/
structure ConsoleHandlerState where
  show_date : Bool
  show_component : Bool
deriving DecidableEq, Repr

/-- ConsoleHandler as constructed (`show_date = show_component = true`). -/
def ConsoleHandler.new : ConsoleHandlerState := ⟨true, true⟩

/-- ConsoleHandler.render (log.py lines 163-206): assembles the header from
    the optional timestamp and the left-justified component name, appends the
    formatted message (a `TypeError` from `record.getMessage()` propagates)
    styled by `styleFor`, and pairs it with the rendered traceback exactly
    when the record carries exception info. -/
def ConsoleHandler.render (h : ConsoleHandlerState) (r : LogRecord) :
    Except PyError (RenderedLine × Option String) :=
  let dpart := if h.show_date then r.createdStr else ""
  let cpart := if h.show_component then
      (if h.show_date then " " else "") ++ ljust r.name 10
    else ""
  let sep := if h.show_date || h.show_component then ": " else ""
  match r.getMessage with
  | .error e => .error e
  | .ok s =>
    .ok (⟨dpart ++ cpart ++ sep, s, styleFor r.levelno⟩, r.excInfo)

/-- One `console_stderr.print` performed by `ConsoleHandler.emit`: the target
    stream and what is printed (the primary line or the traceback block). -/
inductive PrintEvent where
  | line (stream : OutStream) (l : RenderedLine)
  | block (stream : OutStream) (tb : String)
deriving DecidableEq, Repr

/-- Stream a print event went to. -/
def PrintEvent.stream : PrintEvent → OutStream
  | .line s _ => s
  | .block s _ => s

/-- ConsoleHandler.emit (log.py lines 208-212): renders the record (errors
    propagate, nothing is caught), prints the primary line to
    `console_stderr`, then prints the traceback block to `console_stderr`
    if one was rendered. -/
def ConsoleHandler.emit (h : ConsoleHandlerState) (r : LogRecord) :
    Except PyError (List PrintEvent) :=
  match ConsoleHandler.render h r with
  | .error e => .error e
  | .ok (msg, tb) =>
    .ok ([PrintEvent.line console_stderr msg]
         ++ (match tb with
             | some t => [PrintEvent.block console_stderr t]
             | none => []))

/-- A stack frame as `_get_line_number` reads it: filename and line number. -/
structure Frame where
  filename : String
  lineno : Nat
deriving DecidableEq, Repr

/-- _get_line_number (log.py lines 65-68): indexes `inspect.stack()` at
    `depth`; an index beyond the end of the stack raises `IndexError`. -/
def _get_line_number (stack : List Frame) (depth : Nat) :
    Except PyError (String × Nat) :=
  match stack.get? depth with
  | some f => .ok (f.filename, f.lineno)
  | none => .error .indexError

/-- The depth chosen by `_record_factory` (log.py line 87): 7 for the root
    logger's module-level convenience functions, 5 for per-component logger
    methods. -/
def customDepth (name : String) : Nat := if name = "root" then 7 else 5

/-- _record_factory (log.py lines 75-104), restricted to the `(fn, lno)` pair
    it hands to the stock record factory: for the two extension levels TRACE
    and NOTICE the pair is replaced by the stack lookup at `customDepth name`;
    every other level keeps the native pair unchanged. -/
def _record_factory (stack : List Frame) (name : String) (level : Nat)
    (fn : String) (lno : Nat) : Except PyError (String × Nat) :=
  if level = logging.TRACE ∨ level = logging.NOTICE then
    _get_line_number stack (customDepth name)
  else .ok (fn, lno)

/-- Operations `ZstdFileHandler.close` performs on its writer and file. -/
inductive ZOp where
  | flushWriter
  | closeWriter
  | closeFile
deriving DecidableEq, Repr

/-- State of a ZstdFileHandler: the chunks handed to `zstd_writer.write` in
    order (each chunk is the byte content of one record line, kept as
    characters), and the trace of lifecycle operations performed so far. -/
structure ZstdHandlerState where
  written : List (List Char)
  ops : List ZOp
deriving DecidableEq, Repr

/-- A freshly opened ZstdFileHandler (log.py lines 216-220). -/
def ZstdFileHandler.new : ZstdHandlerState := ⟨[], []⟩

/-- The `if not data.endswith("\n"): data += "\n"` step of
    `ZstdFileHandler.emit`. -/
def ensureNewline (data : List Char) : List Char :=
  if data.getLast? = some '\n' then data else data ++ ['\n']

/-- ZstdFileHandler.emit (log.py lines 227-231): formats the record, ensures
    a trailing newline, and writes the chunk to the compression stream. The
    already-formatted line is taken as input here. -/
def ZstdFileHandler.emit (st : ZstdHandlerState) (formatted : List Char) :
    ZstdHandlerState :=
  { st with written := st.written ++ [ensureNewline formatted] }

/-- ZstdFileHandler.close (log.py lines 222-225): flush the zstd writer,
    close (finalize) the zstd stream, then close the underlying file, in
    that order. -/
def ZstdFileHandler.close (st : ZstdHandlerState) : ZstdHandlerState :=
  { st with ops := st.ops ++ [ZOp.flushWriter, ZOp.closeWriter, ZOp.closeFile] }

/-- Emit a list of formatted lines in order. -/
def ZstdFileHandler.emitAll (st : ZstdHandlerState) (lines : List (List Char)) :
    ZstdHandlerState :=
  lines.foldl ZstdFileHandler.emit st

/-- Decompressed content of the output file: the concatenation of the written
    chunks, available exactly when the stream was flushed and finalized and
    the file closed (otherwise the file lacks the zstd frame trailer and is
    not independently decompressible). -/
def decompressedFile (st : ZstdHandlerState) : Option (List Char) :=
  if st.ops = [ZOp.flushWriter, ZOp.closeWriter, ZOp.closeFile] then
    some st.written.flatten
  else none

/-- Split a character stream into its newline-delimited records: each `'\n'`
    terminates a record, and a final unterminated fragment counts as one. -/
def linesOf : List Char → List (List Char)
  | [] => []
  | c :: rest =>
    if c = '\n' then [] :: linesOf rest
    else
      match linesOf rest with
      | [] => [[c]]
      | l :: ls => (c :: l) :: ls

/-- State of a logger as far as the facade methods read it: the effective
    level and the manager-wide `disable` threshold consulted by
    `Logger.isEnabledFor` of the standard library. -/
structure LoggerState where
  effectiveLevel : Nat
  managerDisable : Nat
deriving DecidableEq, Repr

/-- Logger.isEnabledFor of the standard library: false when the manager-wide
    `disable` is at or above the level, else `level >= getEffectiveLevel()`. -/
def LoggerState.isEnabledFor (l : LoggerState) (level : Nat) : Bool :=
  if level ≤ l.managerDisable then false
  else decide (l.effectiveLevel ≤ level)

/-- The observable outcome of one facade call when it passes the threshold
    check: the level, message template, substitution arguments, and the tags
    put into `extra` that `self._log` goes on to turn into a record and hand
    to the sinks. `none` from a facade method means the call returned without
    constructing this. -/
structure Emission where
  level : Nat
  msg : String
  args : List String
  tags : Option (List String)
deriving DecidableEq, Repr

/-- Logger.trace (log.py lines 235-253): emits at TRACE with the caller's
    `extra` tags untouched, only if `isEnabledFor(TRACE)`. -/
def Logger.trace (l : LoggerState) (msg : String) (args : List String)
    (extraTags : Option (List String)) : Option Emission :=
  if l.isEnabledFor logging.TRACE then
    some ⟨logging.TRACE, msg, args, extraTags⟩
  else none

/-- Logger.notice (log.py lines 255-273): emits at NOTICE with the caller's
    `extra` tags untouched, only if `isEnabledFor(NOTICE)`. -/
def Logger.notice (l : LoggerState) (msg : String) (args : List String)
    (extraTags : Option (List String)) : Option Emission :=
  if l.isEnabledFor logging.NOTICE then
    some ⟨logging.NOTICE, msg, args, extraTags⟩
  else none

/-- Logger.preamble (log.py lines 275-295): forces `extra["tags"] =
    ["preamble"]` and emits at INFO only if `isEnabledFor(INFO)`. -/
def Logger.preamble (l : LoggerState) (msg : String) (args : List String)
    (_extraTags : Option (List String)) : Option Emission :=
  if l.isEnabledFor logging.INFO then
    some ⟨logging.INFO, msg, args, some ["preamble"]⟩
  else none

/-- Logger.result (log.py lines 297-317): forces `extra["tags"] = ["result"]`
    and emits at NOTICE only if `isEnabledFor(NOTICE)`. -/
def Logger.result (l : LoggerState) (msg : String) (args : List String)
    (_extraTags : Option (List String)) : Option Emission :=
  if l.isEnabledFor logging.NOTICE then
    some ⟨logging.NOTICE, msg, args, some ["result"]⟩
  else none

/-- Logger.write (log.py lines 319-339): forces `extra["tags"] = ["write"]`
    and emits at DEBUG only if `isEnabledFor(DEBUG)`. -/
def Logger.write (l : LoggerState) (msg : String) (args : List String)
    (_extraTags : Option (List String)) : Option Emission :=
  if l.isEnabledFor logging.DEBUG then
    some ⟨logging.DEBUG, msg, args, some ["write"]⟩
  else none

/-- Logger.read (log.py lines 341-361): forces `extra["tags"] = ["read"]`
    and emits at DEBUG only if `isEnabledFor(DEBUG)`. -/
def Logger.read (l : LoggerState) (msg : String) (args : List String)
    (_extraTags : Option (List String)) : Option Emission :=
  if l.isEnabledFor logging.DEBUG then
    some ⟨logging.DEBUG, msg, args, some ["read"]⟩
  else none

deriving instance DecidableEq for Except

/-- Helper: an attribute absent from a table is not found by `find?`. -/
theorem find?_none_of_hasattr_false {attrs : List (String × PyAttr)}
    {name : String} (h : hasattr attrs name = false) :
    attrs.find? (fun p => p.1 = name) = none := by
  have h2 : ∀ p ∈ attrs, ¬ (p.1 = name) := by
    intro p hp hc
    have hT : attrs.any (fun p => decide (p.1 = name)) = true :=
      List.any_eq_true.mpr ⟨p, hp, by simp [hc]⟩
    unfold hasattr at h
    rw [hT] at h
    exact Bool.noConfusion h
  apply List.find?_eq_none.mpr
  intro p hp
  simpa using h2 p hp

/-- C1 counterexample: the rank-collision half of the claim is false. The
    numeric rank 10 (DEBUG) is already registered in the post-import state,
    yet registering the fresh name "VERBOSE" at rank 10 succeeds instead of
    failing with a configuration error. -/
theorem add_logging_level_rank_collision_succeeds :
    rankExists galliaLoggingState 10 = true ∧
    (add_logging_level galliaLoggingState "VERBOSE" 10).isOk = true := by
  constructor
  · decide
  · decide

/-- C1 (amended): `add_logging_level(name, num)` fails with AttributeError
    exactly when `name`, or its derived lowercase accessor, already exists on
    the logging module or the accessor exists on the logger class; no check
    involves the numeric rank, and a registration passing the three name
    checks always succeeds — whatever `num` is — and is subsequently
    queryable by name (module constant) and by number (level-name table). -/
theorem add_logging_level_name_check_spec (st : LoggingModuleState)
    (level_name : String) (level_num : Nat) :
    (hasattr st.moduleAttrs level_name = true ∨
     hasattr st.moduleAttrs (strLower level_name) = true ∨
     st.loggerClassAttrs.contains (strLower level_name) = true →
      add_logging_level st level_name level_num = .error .attributeError) ∧
    (hasattr st.moduleAttrs level_name = false →
     hasattr st.moduleAttrs (strLower level_name) = false →
     st.loggerClassAttrs.contains (strLower level_name) = false →
      ∃ st2, add_logging_level st level_name level_num = .ok st2 ∧
        getattrLevel st2 level_name = some level_num ∧
        getLevelName st2 level_num = level_name ∧
        hasattr st2.moduleAttrs level_name = true ∧
        hasattr st2.moduleAttrs (strLower level_name) = true ∧
        st2.loggerClassAttrs.contains (strLower level_name) = true) := by
  constructor
  · intro h
    unfold add_logging_level
    cases hA : hasattr st.moduleAttrs level_name
    · cases hB : hasattr st.moduleAttrs (strLower level_name)
      · cases hC : st.loggerClassAttrs.contains (strLower level_name)
        · rcases h with h | h | h <;> simp_all
        · have hC2 : strLower level_name ∈ st.loggerClassAttrs := by simpa using hC
          simp [hA, hB, hC2]
      · simp [hA, hB]
    · simp [hA]
  · intro h1 h2 h3
    have hok : add_logging_level st level_name level_num = .ok
        ⟨st.moduleAttrs ++ [(level_name, .levelConst level_num),
          (strLower level_name, .func)],
         st.loggerClassAttrs ++ [strLower level_name],
         (level_num, level_name) :: st.levelToName⟩ := by
      unfold add_logging_level
      simp [h1, h2, h3]
      simpa using h3
    refine ⟨_, hok, ?_, ?_, ?_, ?_, ?_⟩
    · unfold getattrLevel
      simp only [List.find?_append, find?_none_of_hasattr_false h1]
      rw [List.find?_cons_of_pos _ (by simp)]
      simp
    · unfold getLevelName
      rw [List.find?_cons_of_pos _ (by simp)]
    · unfold hasattr
      rw [List.any_append]
      simp
    · unfold hasattr
      rw [List.any_append]
      simp
    · simp

/-- C1 witness: both branches of the amended registration contract applied at
    the post-import state: registering the existing name "TRACE" again fails
    with AttributeError, and registering the fresh name "VERBOSE" at the fresh
    rank 60 succeeds and is queryable. -/
theorem add_logging_level_name_check_spec_witness :
    add_logging_level galliaLoggingState "TRACE" 99 = .error .attributeError ∧
    ∃ st2, add_logging_level galliaLoggingState "VERBOSE" 60 = .ok st2 ∧
      getattrLevel st2 "VERBOSE" = some 60 ∧
      getLevelName st2 60 = "VERBOSE" ∧
      hasattr st2.moduleAttrs "VERBOSE" = true ∧
      hasattr st2.moduleAttrs (strLower "VERBOSE") = true ∧
      st2.loggerClassAttrs.contains (strLower "VERBOSE") = true := by
  constructor
  · exact (add_logging_level_name_check_spec galliaLoggingState "TRACE" 99).1
      (Or.inl (by decide))
  · exact (add_logging_level_name_check_spec galliaLoggingState "VERBOSE" 60).2
      (by decide) (by decide) (by decide)

/-- C2: every Logger Facade entry point (trace, notice, preamble, result,
    write, read) whose severity is not permitted by the logger's effective
    threshold returns `none`: no emission is constructed, so no
    message-template substitution happens and no sink receives anything. -/
theorem facade_disabled_no_emission (l : LoggerState) (msg : String)
    (args : List String) (extraTags : Option (List String)) :
    (l.isEnabledFor logging.TRACE = false →
      Logger.trace l msg args extraTags = none) ∧
    (l.isEnabledFor logging.NOTICE = false →
      Logger.notice l msg args extraTags = none) ∧
    (l.isEnabledFor logging.INFO = false →
      Logger.preamble l msg args extraTags = none) ∧
    (l.isEnabledFor logging.NOTICE = false →
      Logger.result l msg args extraTags = none) ∧
    (l.isEnabledFor logging.DEBUG = false →
      Logger.write l msg args extraTags = none) ∧
    (l.isEnabledFor logging.DEBUG = false →
      Logger.read l msg args extraTags = none) := by
  refine ⟨?_, ?_, ?_, ?_, ?_, ?_⟩ <;> intro h <;>
    simp [Logger.trace, Logger.notice, Logger.preamble, Logger.result,
      Logger.write, Logger.read, h]

/-- C2 witness: a logger whose effective level is WARNING (30) suppresses all
    six entry points. -/
theorem facade_disabled_no_emission_witness :
    Logger.trace ⟨30, 0⟩ "m %s" ["x"] none = none ∧
    Logger.notice ⟨30, 0⟩ "m %s" ["x"] none = none ∧
    Logger.preamble ⟨30, 0⟩ "m %s" ["x"] none = none ∧
    Logger.result ⟨30, 0⟩ "m %s" ["x"] none = none ∧
    Logger.write ⟨30, 0⟩ "m %s" ["x"] none = none ∧
    Logger.read ⟨30, 0⟩ "m %s" ["x"] none = none := by
  have h := facade_disabled_no_emission ⟨30, 0⟩ "m %s" ["x"] none
  exact ⟨h.1 (by decide), h.2.1 (by decide), h.2.2.1 (by decide),
    h.2.2.2.1 (by decide), h.2.2.2.2.1 (by decide), h.2.2.2.2.2 (by decide)⟩

/-- C3 counterexample: the claim that the resolver fails closed is false.
    With a two-frame stack, the lookup at depth 7 raises `IndexError` rather
    than returning an "unknown" placeholder location. -/
theorem get_line_number_raises_beyond_stack :
    _get_line_number [⟨"wrapper.py", 10⟩, ⟨"caller.py", 42⟩] 7 =
      .error .indexError := by decide

/-- C3 (amended): a depth at or beyond the stack size makes
    `_get_line_number` raise `IndexError` (the code does not fail closed);
    a depth inside the stack returns that frame's file and line. -/
theorem get_line_number_depth_spec (stack : List Frame) (depth : Nat) :
    (stack.length ≤ depth →
      _get_line_number stack depth = .error .indexError) ∧
    (∀ f : Frame, stack.get? depth = some f →
      _get_line_number stack depth = .ok (f.filename, f.lineno)) := by
  constructor
  · intro h
    unfold _get_line_number
    rw [List.get?_eq_none.mpr h]
  · intro f hf
    unfold _get_line_number
    rw [hf]

/-- C3 witness: the amended resolver contract applied to a concrete
    one-frame stack, at an overflowing depth and at depth 0. -/
theorem get_line_number_depth_spec_witness :
    _get_line_number [⟨"scan.py", 3⟩] 5 = .error .indexError ∧
    _get_line_number [⟨"scan.py", 3⟩] 0 = .ok ("scan.py", 3) := by
  constructor
  · exact (get_line_number_depth_spec [⟨"scan.py", 3⟩] 5).1 (by decide)
  · exact (get_line_number_depth_spec [⟨"scan.py", 3⟩] 0).2 ⟨"scan.py", 3⟩ rfl

/-- C4: the record factory replaces the native `(fn, lno)` pair by the
    depth-corrected stack lookup exactly for the two extension levels TRACE
    and NOTICE; every base-set level keeps its native call-site unchanged;
    and the correction depth for the root logger's module-level convenience
    functions (7) is strictly larger than for per-component logger methods
    (5). -/
theorem record_factory_callsite_spec (stack : List Frame) (name : String)
    (level : Nat) (fn : String) (lno : Nat) :
    (level = logging.TRACE ∨ level = logging.NOTICE →
      _record_factory stack name level fn lno =
        _get_line_number stack (customDepth name)) ∧
    (level ≠ logging.TRACE → level ≠ logging.NOTICE →
      _record_factory stack name level fn lno = .ok (fn, lno)) ∧
    customDepth "root" = 7 ∧
    (name ≠ "root" → customDepth name = 5 ∧ customDepth name < customDepth "root") := by
  refine ⟨?_, ?_, by decide, ?_⟩
  · intro h
    unfold _record_factory
    rw [if_pos h]
  · intro h1 h2
    unfold _record_factory
    rw [if_neg (by simp [h1, h2])]
  · intro h
    unfold customDepth
    simp [h]

/-- C4 witness: with a six-frame stack, a NOTICE record from per-component
    logger "scanner" resolves to frame 5 while an INFO record keeps the
    native pair, and the root depth 7 strictly exceeds the component
    depth 5. -/
theorem record_factory_callsite_spec_witness :
    _record_factory
      [⟨"f0", 0⟩, ⟨"f1", 1⟩, ⟨"f2", 2⟩, ⟨"f3", 3⟩, ⟨"f4", 4⟩, ⟨"caller.py", 99⟩]
      "scanner" logging.NOTICE "native.py" 1 = .ok ("caller.py", 99) ∧
    _record_factory
      [⟨"f0", 0⟩, ⟨"f1", 1⟩, ⟨"f2", 2⟩, ⟨"f3", 3⟩, ⟨"f4", 4⟩, ⟨"caller.py", 99⟩]
      "scanner" logging.INFO "native.py" 1 = .ok ("native.py", 1) ∧
    customDepth "scanner" = 5 ∧ customDepth "scanner" < customDepth "root" := by
  have h1 := record_factory_callsite_spec
    [⟨"f0", 0⟩, ⟨"f1", 1⟩, ⟨"f2", 2⟩, ⟨"f3", 3⟩, ⟨"f4", 4⟩, ⟨"caller.py", 99⟩]
    "scanner" logging.NOTICE "native.py" 1
  have h2 := record_factory_callsite_spec
    [⟨"f0", 0⟩, ⟨"f1", 1⟩, ⟨"f2", 2⟩, ⟨"f3", 3⟩, ⟨"f4", 4⟩, ⟨"caller.py", 99⟩]
    "scanner" logging.INFO "native.py" 1
  refine ⟨?_, h2.2.1 (by decide) (by decide), (h1.2.2.2 (by decide)).1,
    (h1.2.2.2 (by decide)).2⟩
  rw [h1.1 (Or.inr rfl)]
  decide

/-- Lookup of a key in a serialized JSON object (insertion-ordered key/value
    list); `none` means the key is absent from the line. -/
def fieldOf (d : List (String × JVal)) (k : String) : Option JVal :=
  (d.find? (fun p => p.1 = k)).map (fun p => p.2)

/-- A record as `Logger.trace` with `extra={"tags": []}` produces it: the
    `tags` attribute exists on the record but holds the empty list. -/
def emptyTagsRecord : LogRecord :=
  { name := "scanner", levelno := logging.NOTICE, levelname := "NOTICE",
    msg := "hello", args := [], createdStr := "2021-01-01T00:00:00+00:00",
    funcName := "main", pathname := "scan.py", lineno := 7,
    tags := some [], excInfo := none }

/-- The record produced by the `result` scenario of the spec: component
    "scanner", message template `"status=%s"` with argument `"PASS"`, at the
    NOTICE level with the forced tag list `["result"]`. -/
def resultScenarioRecord : LogRecord :=
  { name := "scanner", levelno := logging.NOTICE, levelname := "NOTICE",
    msg := "status=%s", args := ["PASS"],
    createdStr := "2021-01-01T00:00:00+00:00", funcName := "main",
    pathname := "scan.py", lineno := 12,
    tags := some ["result"], excInfo := none }

/-- C5 counterexample: the "tag set present only if it is non-empty" half of
    the claim is false. A record whose `tags` attribute holds the empty list
    is serialized with a `tags` field anyway. -/
theorem json_format_empty_tags_present :
    emptyTagsRecord.tags = some [] ∧
    fieldOf ((JsonFormatter.format "host1" emptyTagsRecord).toOption.getD [])
      "tags" = some (JVal.arr []) := by
  constructor
  · rfl
  · decide

/-- C5 (amended): for every record whose message formats and whose level is
    registered, the structured sink serializes one self-contained line with
    the schema version marker 2, component name, host, timestamp, formatted
    message, internal severity name and numeric rank, external stable
    priority code, and call-site `path:line`; the `tags` field is present
    exactly when the record carries a `tags` attribute (the facade's tagged
    entry points always attach a non-empty one, but an empty attached list is
    serialized too), and `stacktrace` exactly when error context is present.
    In particular the `result` scenario at component "scanner" with template
    `"status=%s"` and argument `"PASS"` yields `tags=["result"]`, priority
    equal to NOTICE's code, and `data="status=PASS"`. -/
theorem json_format_fields_spec (host : String) (r : LogRecord)
    (data : String) (p : MessagePrio)
    (hmsg : r.getMessage = .ok data)
    (hp : level_to_priority r.levelno = some p) :
    (∃ d, JsonFormatter.format host r = .ok d ∧
      fieldOf d "version" = some (JVal.num 2) ∧
      fieldOf d "component" = some (JVal.str r.name) ∧
      fieldOf d "host" = some (JVal.str host) ∧
      fieldOf d "data" = some (JVal.str data) ∧
      fieldOf d "timestamp" = some (JVal.str r.createdStr) ∧
      fieldOf d "_python_level_no" = some (JVal.num r.levelno) ∧
      fieldOf d "_python_level_name" = some (JVal.str r.levelname) ∧
      fieldOf d "priority" = some (JVal.num p.value) ∧
      fieldOf d "line" = some (JVal.str (r.pathname ++ ":" ++ toString r.lineno)) ∧
      fieldOf d "tags" = r.tags.map JVal.arr ∧
      fieldOf d "stacktrace" = r.excInfo.map JVal.str) ∧
    (∀ l : LoggerState, l.isEnabledFor logging.NOTICE = true →
      Logger.result l "status=%s" ["PASS"] none =
        some ⟨logging.NOTICE, "status=%s", ["PASS"], some ["result"]⟩) ∧
    resultScenarioRecord.getMessage = .ok "status=PASS" ∧
    fieldOf ((JsonFormatter.format "host1" resultScenarioRecord).toOption.getD [])
      "tags" = some (JVal.arr ["result"]) ∧
    fieldOf ((JsonFormatter.format "host1" resultScenarioRecord).toOption.getD [])
      "priority" = some (JVal.num (MessagePrio.value .NOTICE)) ∧
    fieldOf ((JsonFormatter.format "host1" resultScenarioRecord).toOption.getD [])
      "data" = some (JVal.str "status=PASS") := by
  refine ⟨?_, ?_, by decide, by decide, by decide, by decide⟩
  · refine ⟨[("version", .num 2), ("component", .str r.name), ("host", .str host),
        ("data", .str data), ("timestamp", .str r.createdStr),
        ("_python_level_no", .num r.levelno),
        ("_python_level_name", .str r.levelname),
        ("_python_func_name", .str r.funcName),
        ("priority", .num p.value)]
       ++ (match r.tags with
           | some ts => [("tags", JVal.arr ts)]
           | none => [])
       ++ (match r.excInfo with
           | some st => [("stacktrace", JVal.str st)]
           | none => [])
       ++ [("line", .str (r.pathname ++ ":" ++ toString r.lineno))], ?_, ?_⟩
    · unfold JsonFormatter.format
      rw [hmsg, hp]
    · cases htags : r.tags <;> cases hexc : r.excInfo <;>
        simp [fieldOf, htags, hexc]
  · intro l hl
    unfold Logger.result
    rw [hl]
    rfl

/-- C5 witness: the amended serializer contract applied to the result
    scenario record itself. -/
theorem json_format_fields_spec_witness :
    ∃ d, JsonFormatter.format "host1" resultScenarioRecord = .ok d ∧
      fieldOf d "component" = some (JVal.str "scanner") ∧
      fieldOf d "priority" = some (JVal.num 5) ∧
      fieldOf d "data" = some (JVal.str "status=PASS") ∧
      fieldOf d "tags" = some (JVal.arr ["result"]) := by
  obtain ⟨d, hd, hfields⟩ :=
    (json_format_fields_spec "host1" resultScenarioRecord "status=PASS"
      .NOTICE (by decide) (by decide)).1
  exact ⟨d, hd, hfields.2.1, hfields.2.2.2.2.2.2.2.1,
    hfields.2.2.2.1, hfields.2.2.2.2.2.2.2.2.2.1⟩

/-- One full handler run: open, emit every formatted line in order, close. -/
def zstdRun (records : List (List Char)) : ZstdHandlerState :=
  ZstdFileHandler.close (ZstdFileHandler.emitAll ZstdFileHandler.new records)

/-- Helper: `emitAll` appends the newline-ensured chunks in order and leaves
    the lifecycle trace untouched. -/
theorem emitAll_written (records : List (List Char)) :
    ∀ st : ZstdHandlerState,
      (ZstdFileHandler.emitAll st records).written =
        st.written ++ records.map ensureNewline ∧
      (ZstdFileHandler.emitAll st records).ops = st.ops := by
  induction records with
  | nil => intro st; simp [ZstdFileHandler.emitAll]
  | cons r rest ih =>
    intro st
    have h := ih (ZstdFileHandler.emit st r)
    unfold ZstdFileHandler.emitAll at h ⊢
    simp only [List.foldl_cons, List.map_cons]
    rw [h.1, h.2]
    simp [ZstdFileHandler.emit]

/-- Helper: projection of `close` on the lifecycle trace. -/
theorem close_ops (st : ZstdHandlerState) :
    (ZstdFileHandler.close st).ops =
      st.ops ++ [ZOp.flushWriter, ZOp.closeWriter, ZOp.closeFile] := rfl

/-- Helper: `close` leaves the written chunks untouched. -/
theorem close_written (st : ZstdHandlerState) :
    (ZstdFileHandler.close st).written = st.written := rfl

/-- Helper: a line without an internal newline gets exactly one appended. -/
theorem ensureNewline_of_no_newline {l : List Char} (h : '\n' ∉ l) :
    ensureNewline l = l ++ ['\n'] := by
  unfold ensureNewline
  rw [if_neg]
  intro hc
  obtain ⟨hne, heq⟩ :=
    List.mem_getLast?_eq_getLast (l := l) (x := '\n') (by simp [hc, Option.mem_def])
  exact h (heq ▸ List.getLast_mem hne)

/-- Helper: the first step of `linesOf` on a non-newline head. -/
theorem linesOf_cons_of_ne (c : Char) (rest : List Char) (h : c ≠ '\n') :
    linesOf (c :: rest) =
      match linesOf rest with
      | [] => [[c]]
      | l :: ls => (c :: l) :: ls := by
  conv_lhs => unfold linesOf
  rw [if_neg h]

/-- Helper: splitting a stream that starts with a newline-free record
    followed by its terminator peels off exactly that record. -/
theorem linesOf_append (l rest : List Char) (h : '\n' ∉ l) :
    linesOf (l ++ '\n' :: rest) = l :: linesOf rest := by
  induction l with
  | nil =>
    rw [List.nil_append]
    conv_lhs => unfold linesOf
    rw [if_pos rfl]
  | cons c cs ih =>
    have hc : c ≠ '\n' := by
      intro hc
      exact h (hc ▸ List.mem_cons_self c cs)
    have hcs : '\n' ∉ cs := fun hm => h (List.mem_cons_of_mem c hm)
    rw [List.cons_append, linesOf_cons_of_ne c _ hc, ih hcs]

/-- C6: writing N structured records (each free of internal newlines, as
    serialized JSON lines are) and then closing appends each record to the
    compression stream with a trailing newline ensured, performs flush /
    finalize-stream / close-file in that order, and the decompressed file
    splits back into exactly the N records in emission order. -/
theorem zstd_roundtrip_spec (records : List (List Char))
    (hnl : ∀ r ∈ records, '\n' ∉ r) :
    (zstdRun records).written = records.map ensureNewline ∧
    (zstdRun records).ops = [ZOp.flushWriter, ZOp.closeWriter, ZOp.closeFile] ∧
    decompressedFile (zstdRun records) =
      some ((records.map ensureNewline).flatten) ∧
    linesOf ((records.map ensureNewline).flatten) = records ∧
    (linesOf ((records.map ensureNewline).flatten)).length = records.length := by
  have hw := emitAll_written records ZstdFileHandler.new
  have hwr : (zstdRun records).written = records.map ensureNewline := by
    unfold zstdRun
    rw [close_written, hw.1]
    rfl
  have hops : (zstdRun records).ops =
      [ZOp.flushWriter, ZOp.closeWriter, ZOp.closeFile] := by
    unfold zstdRun
    rw [close_ops, hw.2]
    rfl
  have hsplit : linesOf ((records.map ensureNewline).flatten) = records := by
    clear hw hwr hops
    induction records with
    | nil => simp [linesOf]
    | cons r rest ih =>
      have hr : '\n' ∉ r := hnl r (List.mem_cons_self r rest)
      have hrest : ∀ x ∈ rest, '\n' ∉ x :=
        fun x hx => hnl x (List.mem_cons_of_mem r hx)
      simp only [List.map_cons, List.flatten_cons]
      rw [ensureNewline_of_no_newline hr, List.append_assoc, List.singleton_append,
        linesOf_append r _ hr, ih hrest]
  refine ⟨hwr, hops, ?_, hsplit, by rw [hsplit]⟩
  unfold decompressedFile
  rw [if_pos hops, hwr]

/-- C6 witness: two concrete records round-trip through the handler. -/
theorem zstd_roundtrip_spec_witness :
    decompressedFile (zstdRun ["ok".data, "go".data]) =
      some "ok\ngo\n".data ∧
    linesOf "ok\ngo\n".data = ["ok".data, "go".data] := by
  have h := zstd_roundtrip_spec ["ok".data, "go".data] (by decide)
  constructor
  · rw [h.2.2.1]
    decide
  · have := h.2.2.2.1
    rw [show ((["ok".data, "go".data].map ensureNewline).flatten) =
      "ok\ngo\n".data by decide] at this
    exact this

/-- A record with mismatched substitution arguments (two arguments for one
    `%s` placeholder), as `logger.info("status=%s", "up", "extra")` builds. -/
def badArgsRecord : LogRecord :=
  { name := "scanner", levelno := logging.INFO, levelname := "INFO",
    msg := "status=%s", args := ["up", "extra"],
    createdStr := "2021-01-01T00:00:00+00:00", funcName := "main",
    pathname := "scan.py", lineno := 9, tags := none, excInfo := none }

/-- C7 counterexample: the claim that formatting failures are caught and
    degraded is false. For a record with bad substitution arguments, both the
    console sink's emit and the structured sink's format raise the
    `TypeError` instead of degrading to a literal representation. -/
theorem emit_raises_on_format_error :
    badArgsRecord.getMessage = .error .typeError ∧
    ConsoleHandler.emit ConsoleHandler.new badArgsRecord =
      .error .typeError ∧
    JsonFormatter.format "host1" badArgsRecord = .error .typeError := by
  refine ⟨by decide, by decide, by decide⟩

/-- C7 (amended): a message-formatting failure is not caught anywhere in the
    sinks: whatever error `getMessage` raises propagates unchanged out of
    both `ConsoleHandler.emit` (through `render`) and
    `JsonFormatter.format`. -/
theorem format_error_propagates_spec (h : ConsoleHandlerState) (host : String)
    (r : LogRecord) (e : PyError) (herr : r.getMessage = .error e) :
    ConsoleHandler.emit h r = .error e ∧
    JsonFormatter.format host r = .error e := by
  constructor
  · unfold ConsoleHandler.emit ConsoleHandler.render
    rw [herr]
  · unfold JsonFormatter.format
    rw [herr]

/-- C7 witness: the propagation contract applied to a concrete record whose
    template has a placeholder but no arguments at all. -/
theorem format_error_propagates_spec_witness :
    ConsoleHandler.emit ⟨false, false⟩
      { name := "uds", levelno := logging.DEBUG, levelname := "DEBUG",
        msg := "got %s %s", args := ["one"], createdStr := "t",
        funcName := "f", pathname := "p.py", lineno := 1,
        tags := none, excInfo := none } = .error .typeError ∧
    JsonFormatter.format "h2"
      { name := "uds", levelno := logging.DEBUG, levelname := "DEBUG",
        msg := "got %s %s", args := ["one"], createdStr := "t",
        funcName := "f", pathname := "p.py", lineno := 1,
        tags := none, excInfo := none } = .error .typeError :=
  format_error_propagates_spec ⟨false, false⟩ "h2"
    { name := "uds", levelno := logging.DEBUG, levelname := "DEBUG",
      msg := "got %s %s", args := ["one"], createdStr := "t",
      funcName := "f", pathname := "p.py", lineno := 1,
      tags := none, excInfo := none } .typeError (by decide)

/-- C8: over the nine severities in the declared most-to-least-severe order,
    the external priority code is strictly antitone in severity (it strictly
    grows along the order, EMERGENCY carrying the smallest code and TRACE the
    largest), and the internal numeric rank — for the severities that have a
    registered internal level — is strictly monotonic in severity (it
    strictly shrinks along the order). -/
theorem severity_order_spec :
    (∀ a b : MessagePrio, severityIndex a < severityIndex b →
      MessagePrio.value a < MessagePrio.value b) ∧
    (∀ a b : MessagePrio, severityIndex a < severityIndex b →
      ∀ ra rb : Nat, registeredLevelFor a = some ra →
        registeredLevelFor b = some rb → rb < ra) ∧
    (∀ s : MessagePrio, MessagePrio.value .EMERGENCY ≤ MessagePrio.value s) ∧
    (∀ s : MessagePrio, MessagePrio.value s ≤ MessagePrio.value .TRACE) := by
  refine ⟨by decide, ?_, by decide, by decide⟩
  intro a b hlt ra rb ha hb
  have hcore : ∀ x y : MessagePrio, severityIndex x < severityIndex y →
      (registeredLevelFor x).isSome = true →
      (registeredLevelFor y).isSome = true →
      (registeredLevelFor y).getD 0 < (registeredLevelFor x).getD 0 := by
    decide
  have := hcore a b hlt (by rw [ha]; rfl) (by rw [hb]; rfl)
  rw [ha, hb] at this
  simpa using this

/-- C8 witness: the ordering contract applied at concrete severities:
    CRITICAL is more severe than ERROR with a smaller code, and CRITICAL's
    internal rank 50 strictly exceeds TRACE's internal rank 5. -/
theorem severity_order_spec_witness :
    MessagePrio.value .CRITICAL < MessagePrio.value .ERROR ∧
    (5 : Nat) < 50 ∧
    MessagePrio.value .EMERGENCY ≤ MessagePrio.value .WARNING ∧
    MessagePrio.value .WARNING ≤ MessagePrio.value .TRACE := by
  refine ⟨severity_order_spec.1 .CRITICAL .ERROR (by decide), ?_,
    severity_order_spec.2.2.1 .WARNING, severity_order_spec.2.2.2 .WARNING⟩
  exact severity_order_spec.2.1 .CRITICAL .TRACE (by decide) 50 5
    (by decide) (by decide)

/-- C9: whenever the console sink emits a record, every print goes to the
    error stream (the console is constructed on stderr, never stdout), the
    primary line carries exactly the style `styleFor` assigns to the record's
    severity (TRACE grey35, DEBUG grey54, INFO plain, NOTICE bold, WARNING
    bold yellow, ERROR red, CRITICAL bold red), and when the record carries
    error context the traceback is printed as a separate block strictly after
    the primary line, never interleaved. -/
theorem console_emit_spec (h : ConsoleHandlerState) (r : LogRecord)
    (events : List PrintEvent)
    (he : ConsoleHandler.emit h r = .ok events) :
    (∀ ev ∈ events, ev.stream = OutStream.stderr) ∧
    console_stderr = OutStream.stderr ∧
    (∃ line : RenderedLine, line.style = styleFor r.levelno ∧
      (match r.excInfo with
       | some t => events =
           [PrintEvent.line console_stderr line, PrintEvent.block console_stderr t]
       | none => events = [PrintEvent.line console_stderr line])) ∧
    styleFor logging.TRACE = "grey35" ∧
    styleFor logging.DEBUG = "grey54" ∧
    styleFor logging.INFO = "" ∧
    styleFor logging.NOTICE = "bold" ∧
    styleFor logging.WARNING = "bold yellow" ∧
    styleFor logging.ERROR = "red" ∧
    styleFor logging.CRITICAL = "bold red" := by
  cases hm : ConsoleHandler.render h r with
  | error e =>
    have hcontra : ConsoleHandler.emit h r = .error e := by
      unfold ConsoleHandler.emit
      rw [hm]
    rw [hcontra] at he
    exact absurd he (by simp)
  | ok pair =>
    obtain ⟨line, tb⟩ := pair
    have hr : line.style = styleFor r.levelno ∧ tb = r.excInfo := by
      unfold ConsoleHandler.render at hm
      cases hg : r.getMessage with
      | error e =>
        rw [hg] at hm
        exact absurd hm (by simp)
      | ok s =>
        rw [hg] at hm
        simp only [Except.ok.injEq, Prod.mk.injEq] at hm
        exact ⟨by rw [← hm.1], hm.2.symm⟩
    obtain ⟨hstyle, htbe⟩ := hr
    subst htbe
    cases hexc : r.excInfo with
    | none =>
      rw [hexc] at hm
      have hemit : ConsoleHandler.emit h r =
          .ok [PrintEvent.line console_stderr line] := by
        unfold ConsoleHandler.emit
        rw [hm]
        rfl
      have hev : events = [PrintEvent.line console_stderr line] := by
        rw [hemit] at he
        exact (Except.ok.inj he).symm
      refine ⟨?_, rfl, ⟨line, hstyle, hev⟩, rfl, rfl, rfl, rfl, rfl, rfl, rfl⟩
      intro ev hevmem
      rw [hev] at hevmem
      simp at hevmem
      simp [hevmem, PrintEvent.stream, console_stderr]
    | some t =>
      rw [hexc] at hm
      have hemit : ConsoleHandler.emit h r =
          .ok [PrintEvent.line console_stderr line,
               PrintEvent.block console_stderr t] := by
        unfold ConsoleHandler.emit
        rw [hm]
        rfl
      have hev : events = [PrintEvent.line console_stderr line,
          PrintEvent.block console_stderr t] := by
        rw [hemit] at he
        exact (Except.ok.inj he).symm
      refine ⟨?_, rfl, ⟨line, hstyle, hev⟩, rfl, rfl, rfl, rfl, rfl, rfl, rfl⟩
      intro ev hevmem
      rw [hev] at hevmem
      simp at hevmem
      rcases hevmem with h1 | h1 <;>
        simp [h1, PrintEvent.stream, console_stderr]

/-- C9 witness: the console contract applied to a concrete ERROR record
    carrying a traceback: both prints target stderr, the style is red, and
    the traceback block follows the primary line. -/
theorem console_emit_spec_witness :
    ConsoleHandler.emit ConsoleHandler.new
      { name := "scanner", levelno := logging.ERROR, levelname := "ERROR",
        msg := "boom", args := [], createdStr := "T", funcName := "f",
        pathname := "x.py", lineno := 2, tags := none,
        excInfo := some "TB" } =
      .ok [PrintEvent.line OutStream.stderr ⟨"T scanner   : ", "boom", "red"⟩,
           PrintEvent.block OutStream.stderr "TB"] ∧
    (∀ ev ∈ [PrintEvent.line OutStream.stderr ⟨"T scanner   : ", "boom", "red"⟩,
             PrintEvent.block OutStream.stderr "TB"],
      ev.stream = OutStream.stderr) ∧
    styleFor logging.ERROR = "red" := by
  have hemit : ConsoleHandler.emit ConsoleHandler.new
      { name := "scanner", levelno := logging.ERROR, levelname := "ERROR",
        msg := "boom", args := [], createdStr := "T", funcName := "f",
        pathname := "x.py", lineno := 2, tags := none,
        excInfo := some "TB" } =
      .ok [PrintEvent.line OutStream.stderr ⟨"T scanner   : ", "boom", "red"⟩,
           PrintEvent.block OutStream.stderr "TB"] := by decide
  have h := console_emit_spec ConsoleHandler.new
    { name := "scanner", levelno := logging.ERROR, levelname := "ERROR",
      msg := "boom", args := [], createdStr := "T", funcName := "f",
      pathname := "x.py", lineno := 2, tags := none,
      excInfo := some "TB" } _ hemit
  exact ⟨hemit, h.1, h.2.2.2.2.2.2.2.2.1⟩

/-- C10: the structured-sink severity mapping is partial: an internal level
    number has a priority code exactly when it is one of the seven registered
    levels TRACE, DEBUG, INFO, NOTICE, WARNING, ERROR, CRITICAL; no internal
    level is ever registered for EMERGENCY or ALERT; and a record whose
    message formats but whose level number is outside the mapping makes
    serialization raise a lookup error instead of producing a line. -/
theorem serializer_partial_spec :
    (∀ lvl : Nat, (level_to_priority lvl).isSome = true ↔
      (lvl = logging.TRACE ∨ lvl = logging.DEBUG ∨ lvl = logging.INFO ∨
       lvl = logging.NOTICE ∨ lvl = logging.WARNING ∨ lvl = logging.ERROR ∨
       lvl = logging.CRITICAL)) ∧
    registeredLevelFor .EMERGENCY = none ∧
    registeredLevelFor .ALERT = none ∧
    (∀ (host : String) (r : LogRecord) (data : String),
      r.getMessage = .ok data → level_to_priority r.levelno = none →
      JsonFormatter.format host r = .error .keyError) := by
  refine ⟨?_, by decide, by decide, ?_⟩
  · intro lvl
    unfold level_to_priority
    split_ifs with h1 h2 h3 h4 h5 h6 h7 <;> simp_all
  · intro host r data hmsg hnone
    unfold JsonFormatter.format
    rw [hmsg, hnone]

/-- C10 witness: a record at the unregistered level 55 (between ERROR and
    CRITICAL, where EMERGENCY or ALERT would have to live) whose message
    formats fine is rejected with a KeyError by the serializer. -/
theorem serializer_partial_spec_witness :
    JsonFormatter.format "h3"
      { name := "scanner", levelno := 55, levelname := "Level 55",
        msg := "fine", args := [], createdStr := "T", funcName := "f",
        pathname := "x.py", lineno := 4, tags := none, excInfo := none } =
      .error .keyError ∧
    (level_to_priority 55).isSome = false := by
  constructor
  · exact serializer_partial_spec.2.2.2 "h3"
      { name := "scanner", levelno := 55, levelname := "Level 55",
        msg := "fine", args := [], createdStr := "T", funcName := "f",
        pathname := "x.py", lineno := 4, tags := none, excInfo := none }
      "fine" (by decide) (by decide)
  · decide

end Gallia
